import Mathlib

/-!
Verification of the `TwitterScrapper` extraction component (src/main.py).

The Python source is shallowly embedded: its pure string helpers
(`username_cleaner`, `stat_cleaner`, `convert_nitter_image_to_twitter`)
become Lean functions over `String`/`List Char`; the BeautifulSoup
document and the CSS-selector traversal used by
`extract_profile_contents` / `extract_search_contents` become an explicit
HTML node tree with a small selector engine covering exactly the selector
forms the source uses (class compounds, tag names, descendant chains,
`nth-of-type`); unhandled Python exceptions (attribute/key/index errors on
missing required elements, `ValueError` from `int`) become `Except`
failures with a `malformedPage` error; the Selenium page fetch becomes a
function parameter supplying a single navigation outcome per URL.
-/

/-- Rebuild a `String` from its character list. -/
def strOfList (l : List Char) : String := ⟨l⟩

/-- Whitespace test used by the model of Python's `str.strip`. -/
def isPySpace (c : Char) : Bool :=
  c == ' ' || c == '\t' || c == '\n' || c == '\r'

/-- Strip leading and trailing whitespace from a character list. -/
def stripList (l : List Char) : List Char :=
  ((l.dropWhile isPySpace).reverse.dropWhile isPySpace).reverse

/-- Models Python's `str.strip()` (ASCII whitespace suffices for the
pages considered). -/
def pyStrip (s : String) : String := strOfList (stripList s.toList)

/-- Replace every non-overlapping occurrence of `pat` (nonempty) by `rep`,
scanning left to right; the fuel argument bounds the recursion and is
always instantiated with the length of the scanned list. -/
def replaceFuel (pat rep : List Char) : Nat → List Char → List Char
  | 0, l => l
  | _ + 1, [] => []
  | f + 1, c :: cs =>
    if pat.isPrefixOf (c :: cs) then rep ++ replaceFuel pat rep f ((c :: cs).drop pat.length)
    else c :: replaceFuel pat rep f cs

/-- Models Python's `str.replace(pat, rep)` for a nonempty pattern (every
pattern the source passes is a nonempty literal). -/
def pyReplace (s pat rep : String) : String :=
  if pat.toList = [] then s
  else strOfList (replaceFuel pat.toList rep.toList s.toList.length s.toList)

/-- Value of a hexadecimal digit, if `c` is one. -/
def hexVal (c : Char) : Option Nat :=
  if '0' ≤ c ∧ c ≤ '9' then some (c.toNat - 48)
  else if 'a' ≤ c ∧ c ≤ 'f' then some (c.toNat - 87)
  else if 'A' ≤ c ∧ c ≤ 'F' then some (c.toNat - 55)
  else none

/-- Decode the two hex digits following a `%`, returning the decoded
character and the rest of the input; `none` for an invalid escape. -/
def decodePair : List Char → Option (Char × List Char)
  | a :: b :: rest =>
    match hexVal a, hexVal b with
    | some x, some y => some (Char.ofNat (16 * x + y), rest)
    | _, _ => none
  | _ => none

/-- Percent-decode a character list: each valid `%XX` escape becomes the
character with code `XX`; invalid escapes are kept verbatim.  This models
`urllib.parse.unquote` on the single-byte (ASCII) escapes that occur in
the URLs considered.  The fuel argument bounds the recursion and is
always instantiated with the length of the scanned list. -/
def unquoteFuel : Nat → List Char → List Char
  | 0, l => l
  | _ + 1, [] => []
  | f + 1, c :: cs =>
    if c = '%' then
      match decodePair cs with
      | some (d, rest) => d :: unquoteFuel f rest
      | none => c :: unquoteFuel f cs
    else c :: unquoteFuel f cs

/-- Models `urllib.parse.unquote` (see `unquoteFuel`). -/
def unquote (s : String) : String :=
  strOfList (unquoteFuel s.toList.length s.toList)

/-- Numeric value of a digit string (most significant digit first). -/
def digitsVal (l : List Char) : Nat :=
  l.foldl (fun a c => a * 10 + (c.toNat - 48)) 0

/-- Models Python's `int(str)` on optionally-negated decimal strings;
inputs outside that fragment (which would raise `ValueError`) yield
`none`.  Whitespace/`+`/underscore forms accepted by Python do not occur
in the inputs the source feeds to `int`. -/
def pyInt (s : String) : Option Int :=
  match s.toList with
  | [] => none
  | c :: cs =>
    if c = '-' then
      if cs ≠ [] ∧ cs.all Char.isDigit then some (-(digitsVal cs : Int)) else none
    else
      if (c :: cs).all Char.isDigit then some ((digitsVal (c :: cs) : Nat) : Int) else none

/-- Predicate `hasOccur pat l` holds when `pat` occurs as a contiguous sublist of
`l` (scanning semantics of `str.replace`). -/
def hasOccur (pat : List Char) : List Char → Bool
  | [] => pat.isPrefixOf ([] : List Char)
  | c :: cs => pat.isPrefixOf (c :: cs) || hasOccur pat cs

/-- Constant `DOMAIN` of src/main.py. -/
def DOMAIN : String := "https://nitter.net"

/-- Constant `TWITTER_IMG_DOMAIN` of src/main.py. -/
def TWITTER_IMG_DOMAIN : String := "https://pbs.twimg.com"

/-- The mirror's image-proxy path, `f"{DOMAIN}/pic/"` in the source. -/
def picProxy : String := DOMAIN ++ "/pic/"

/-- The origin CDN replacement, `f"{TWITTER_IMG_DOMAIN}/"` in the source. -/
def twImg : String := TWITTER_IMG_DOMAIN ++ "/"

/-- Source `TwitterScrapper.username_cleaner`: `username.replace("@", "")`. -/
def username_cleaner (username : String) : String :=
  pyReplace username "@" ""

/-- Source `TwitterScrapper.stat_cleaner`:
`int(stat.replace(",", "")) if stat else 0`.  The argument is an
`Option String` so that Python's falsy `None` and `""` are both covered;
`none` as a result models the `ValueError` raised by `int` on
non-numeric text. -/
def stat_cleaner (stat : Option String) : Option Int :=
  match stat with
  | none => some 0
  | some s => if s.toList = [] then some 0 else pyInt (pyReplace s "," "")

/-- Source `TwitterScrapper.convert_nitter_image_to_twitter`: if the URL starts
with `DOMAIN + "/pic/"`, replace (every occurrence of) that substring by
`TWITTER_IMG_DOMAIN + "/"` and percent-decode the result; otherwise
return the URL unchanged. -/
def convert_nitter_image_to_twitter (nitter_url : String) : String :=
  if picProxy.toList.isPrefixOf nitter_url.toList then
    unquote (pyReplace nitter_url picProxy twImg)
  else nitter_url

/-- Python's `str(x)` on an optional string: `None` prints as `"None"`
(what an f-string interpolates for an absent date). -/
def pyStrOfOpt : Option String → String
  | none => "None"
  | some s => s

/-- Profile page URL, `f"{DOMAIN}/{username}/search"`. -/
def profileUrl (username : String) : String :=
  DOMAIN ++ "/" ++ username ++ "/search"

/-- Search page URL,
`f"{DOMAIN}/search?f=users&q={query}&since={from_date}&until={to_date}"`. -/
def searchUrl (query : String) (from_date to_date : Option String) : String :=
  DOMAIN ++ "/search?f=users&q=" ++ query ++ "&since=" ++ pyStrOfOpt from_date
    ++ "&until=" ++ pyStrOfOpt to_date

/-- Source `TwitterScrapper.profile_html_contents`.  The Selenium
`driver.get(url); time.sleep(5); driver.page_source` sequence is embedded
as one navigation outcome `nav url` (markup text, or a fault message).
The function issues exactly one navigation — the source has no retry —
and returns the markup, or `none` with the printed log line on a fault
(the `except` clause prints and returns `None`). -/
def profile_html_contents (nav : String → Except String String)
    (username : String) : Option String × List String :=
  match nav (profileUrl username) with
  | .ok page => (some page, [])
  | .error e => (none, ["Error: " ++ e])

/-- Source `TwitterScrapper.search_html_contents`; same fetch model as
`profile_html_contents`, against the user-search URL. -/
def search_html_contents (nav : String → Except String String)
    (query : String) (from_date to_date : Option String) : Option String × List String :=
  match nav (searchUrl query from_date to_date) with
  | .ok page => (some page, [])
  | .error e => (none, ["Error: " ++ e])

/-! ## HTML document model

A BeautifulSoup document is embedded as a tree of element and text
nodes.  `HNodes` is an inlined list so that all recursions over the tree
are structural (and hence reduce in the kernel). -/

mutual
inductive HNode where
  | elem (tag : String) (classes : List String) (attrs : List (String × String)) (children : HNodes)
  | text (s : String)
inductive HNodes where
  | nil
  | cons (head : HNode) (tail : HNodes)
end

/-- Build an `HNodes` spine from a Lean list (used to write pages). -/
def hnodes : List HNode → HNodes
  | [] => .nil
  | n :: ns => .cons n (hnodes ns)

mutual
/-- BeautifulSoup `.text` / `get_text()`: concatenation of every string
in the subtree, in document order. -/
def nodeText : HNode → String
  | .text s => s
  | .elem _ _ _ cs => nodesText cs
def nodesText : HNodes → String
  | .nil => ""
  | .cons n ns => nodeText n ++ nodesText ns
end

/-- Attribute lookup, `tag["name"]` in BeautifulSoup (a `None`/`KeyError`
fault becomes `none`). -/
def getAttr (n : HNode) (key : String) : Option String :=
  match n with
  | .text _ => none
  | .elem _ _ attrs _ => attrs.lookup key

/-- One compound CSS selector: optional tag name, required classes, and
an optional `:nth-of-type` index — exactly the features appearing in the
source's selector strings. -/
structure SimpleSel where
  tag : Option String
  classes : List String
  nth : Option Nat

/-- A descendant-combinator selector chain: the `target` compound must
match the node itself and every entry of `ancestors` (listed innermost
first) must match some strictly enclosing element, in order. -/
structure SelChain where
  target : SimpleSel
  ancestors : List SimpleSel

/-- Matching context of one element: tag, classes, and its
1-based `nth-of-type` position among its element siblings. -/
abbrev DomInfo := String × List String × Nat

/-- Does one element context satisfy a compound selector? -/
def infoMatches (i : DomInfo) (s : SimpleSel) : Bool :=
  (match s.tag with
   | none => true
   | some t => t == i.1) &&
  s.classes.all (fun c => i.2.1.contains c) &&
  (match s.nth with
   | none => true
   | some k => k == i.2.2)

/-- Match the ancestor part of a chain (innermost required ancestor
first) against an ancestor path (nearest enclosing element first),
allowing arbitrary gaps — the CSS descendant combinator. -/
def ancChainMatches : List SimpleSel → List DomInfo → Bool
  | [], _ => true
  | _ :: _, [] => false
  | s :: ss, a :: as => (infoMatches a s && ancChainMatches ss as) || ancChainMatches (s :: ss) as

/-- Number of earlier siblings with the given tag, from the running
per-tag counter list. -/
def countOf (seen : List (String × Nat)) (tag : String) : Nat :=
  match seen.lookup tag with
  | some k => k
  | none => 0

/-- One element reached by the document traversal: the node, its
matching context, the contexts of its ancestors (nearest first), and its
parent node (for BeautifulSoup's `.parent`). -/
structure DomEntry where
  node : HNode
  tag : String
  classes : List String
  typeIdx : Nat
  path : List DomInfo
  parent : HNode

/-- Preorder traversal of a child list, producing every descendant
element in document order together with its context. `seen` carries the
per-tag `nth-of-type` counters for the current sibling list. -/
def entriesOfList (l : HNodes) (parent : HNode) (path : List DomInfo)
    (seen : List (String × Nat)) : List DomEntry :=
  match l with
  | .nil => []
  | .cons (.text _) rest => entriesOfList rest parent path seen
  | .cons (.elem tag classes attrs children) rest =>
    let idx := countOf seen tag + 1
    let self := HNode.elem tag classes attrs children
    ⟨self, tag, classes, idx, path, parent⟩ ::
      (entriesOfList children self ((tag, classes, idx) :: path) [] ++
        entriesOfList rest parent path ((tag, idx) :: seen))

/-- All strict-descendant elements of `root` in document order, with the
root element itself heading every ancestor path (BeautifulSoup's
`element.select` searches descendants; enclosing elements participate in
descendant combinators). -/
def allEntries (root : HNode) : List DomEntry :=
  match root with
  | .text _ => []
  | .elem tag classes attrs children =>
    entriesOfList children (HNode.elem tag classes attrs children) [(tag, classes, 1)] []

/-- Does a traversal entry satisfy a selector chain? -/
def entryMatches (e : DomEntry) (c : SelChain) : Bool :=
  infoMatches (e.tag, e.classes, e.typeIdx) c.target && ancChainMatches c.ancestors e.path

/-- BeautifulSoup `element.select(chain)`, keeping the full traversal entries. -/
def selectEntries (root : HNode) (c : SelChain) : List DomEntry :=
  (allEntries root).filter (fun e => entryMatches e c)

/-- BeautifulSoup `element.select(chain)` as a node list (document order). -/
def selectNodes (root : HNode) (c : SelChain) : List HNode :=
  (selectEntries root c).map (fun e => e.node)

/-- BeautifulSoup `element.select_one(chain)`. -/
def selectOne (root : HNode) (c : SelChain) : Option HNode :=
  (selectNodes root c).head?

/-- BeautifulSoup `element.select_one(chain)` keeping the traversal entry (used where
the source navigates to `.parent`). -/
def selectOneEntry (root : HNode) (c : SelChain) : Option DomEntry :=
  (selectEntries root c).head?

/-! ## The selectors appearing in src/main.py -/

/-- Selector `.profile-card-fullname`. -/
def selProfileFullname : SelChain := ⟨⟨none, ["profile-card-fullname"], none⟩, []⟩

/-- Selector `.profile-card-username`. -/
def selProfileUsername : SelChain := ⟨⟨none, ["profile-card-username"], none⟩, []⟩

/-- Selector `.profile-bio p`. -/
def selProfileBio : SelChain := ⟨⟨some "p", [], none⟩, [⟨none, ["profile-bio"], none⟩]⟩

/-- Selector `.profile-location span:nth-of-type(2)`. -/
def selProfileLocation : SelChain := ⟨⟨some "span", [], some 2⟩, [⟨none, ["profile-location"], none⟩]⟩

/-- Selector `.profile-joindate span`. -/
def selProfileJoindate : SelChain := ⟨⟨some "span", [], none⟩, [⟨none, ["profile-joindate"], none⟩]⟩

/-- Selector `.posts .profile-stat-num`. -/
def selStatPosts : SelChain := ⟨⟨none, ["profile-stat-num"], none⟩, [⟨none, ["posts"], none⟩]⟩

/-- Selector `.following .profile-stat-num`. -/
def selStatFollowing : SelChain := ⟨⟨none, ["profile-stat-num"], none⟩, [⟨none, ["following"], none⟩]⟩

/-- Selector `.followers .profile-stat-num`. -/
def selStatFollowers : SelChain := ⟨⟨none, ["profile-stat-num"], none⟩, [⟨none, ["followers"], none⟩]⟩

/-- Selector `.likes .profile-stat-num`. -/
def selStatLikes : SelChain := ⟨⟨none, ["profile-stat-num"], none⟩, [⟨none, ["likes"], none⟩]⟩

/-- Selector `.profile-card-avatar img`. -/
def selProfileAvatarImg : SelChain := ⟨⟨some "img", [], none⟩, [⟨none, ["profile-card-avatar"], none⟩]⟩

/-- Selector `.profile-banner img`. -/
def selProfileBannerImg : SelChain := ⟨⟨some "img", [], none⟩, [⟨none, ["profile-banner"], none⟩]⟩

/-- Selector `.timeline-item`. -/
def selTimelineItem : SelChain := ⟨⟨none, ["timeline-item"], none⟩, []⟩

/-- Selector `.attachment.image img`. -/
def selAttachmentImg : SelChain := ⟨⟨some "img", [], none⟩, [⟨none, ["attachment", "image"], none⟩]⟩

/-- Selector `.retweet-header div`. -/
def selRetweetHeaderDiv : SelChain := ⟨⟨some "div", [], none⟩, [⟨none, ["retweet-header"], none⟩]⟩

/-- Selector `.tweet-body .replying-to a`. -/
def selReplyingToA : SelChain :=
  ⟨⟨some "a", [], none⟩, [⟨none, ["replying-to"], none⟩, ⟨none, ["tweet-body"], none⟩]⟩

/-- Selector `.tweet-content`. -/
def selTweetContent : SelChain := ⟨⟨none, ["tweet-content"], none⟩, []⟩

/-- Selector `.tweet-date a`. -/
def selTweetDateA : SelChain := ⟨⟨some "a", [], none⟩, [⟨none, ["tweet-date"], none⟩]⟩

/-- Selector `.icon-heart`. -/
def selIconHeart : SelChain := ⟨⟨none, ["icon-heart"], none⟩, []⟩

/-- Selector `.icon-comment`. -/
def selIconComment : SelChain := ⟨⟨none, ["icon-comment"], none⟩, []⟩

/-- Selector `.icon-retweet`. -/
def selIconRetweet : SelChain := ⟨⟨none, ["icon-retweet"], none⟩, []⟩

/-- Selector `.tweet-link`. -/
def selTweetLink : SelChain := ⟨⟨none, ["tweet-link"], none⟩, []⟩

/-- Selector `.photo-rail-grid a img`. -/
def selPhotoRailImg : SelChain :=
  ⟨⟨some "img", [], none⟩, [⟨some "a", [], none⟩, ⟨none, ["photo-rail-grid"], none⟩]⟩

/-- Selector `.profile-result .tweet-avatar img`. -/
def selSearchAvatarImg : SelChain :=
  ⟨⟨some "img", [], none⟩, [⟨none, ["tweet-avatar"], none⟩, ⟨none, ["profile-result"], none⟩]⟩

/-- Selector `.fullname`. -/
def selSearchFullname : SelChain := ⟨⟨none, ["fullname"], none⟩, []⟩

/-- Selector `.username`. -/
def selSearchUsername : SelChain := ⟨⟨none, ["username"], none⟩, []⟩

/-! ## Output records and extraction -/

/-- The `profile` dict built by `extract_profile_contents`. -/
structure Profile where
  full_name : String
  username : String
  bio : String
  location : String
  join_date : String
  tweets : Int
  following : Int
  followers : Int
  likes : Int
  profile_image : String
  banner_image : String
deriving Repr, DecidableEq

/-- One `tweet_data` dict built by `extract_profile_contents`. -/
structure TweetData where
  content : String
  date : String
  likes : String
  comments : String
  retweets : String
  tweet_link : String
  images : List String
  retweeted_by : Option String
  is_retweet : Bool
  is_reply : Bool
  replying_to : Option String
deriving Repr, DecidableEq

/-- The `{"profile": ..., "tweets": ..., "media": ...}` result of
`extract_profile_contents`. -/
structure ProfileBundle where
  profile : Profile
  tweets : List TweetData
  media : List String
deriving Repr, DecidableEq

/-- One user dict built by `extract_search_contents`. -/
structure SearchUser where
  profile_image_url : String
  full_name : String
  username : String
  bio : String
deriving Repr, DecidableEq

/-- The single failure mode of the extraction operations: a required
structural element is missing, so the unguarded Python code faults
(`MalformedPage` in the spec's taxonomy). -/
inductive ExtractErr where
  | malformedPage
deriving Repr, DecidableEq

/-- Dereference a required lookup; a missing value is the unguarded
fault, reported as `malformedPage`. -/
def req {α : Type} (o : Option α) : Except ExtractErr α :=
  match o with
  | some a => .ok a
  | none => .error .malformedPage

/-- Trimmed `.text` of an optional element, with `dflt` when absent
(the source's `x.text.strip() if x else dflt` pattern). -/
def optText (o : Option HNode) (dflt : String) : String :=
  match o with
  | some n => pyStrip (nodeText n)
  | none => dflt

/-- The `profile` dict of `extract_profile_contents`, fields evaluated in
source order; every unguarded dereference threads through `req`. -/
def extractProfileRecord (soup : HNode) : Except ExtractErr Profile := do
  let fullnameN ← req (selectOne soup selProfileFullname)
  let usernameN ← req (selectOne soup selProfileUsername)
  let bio := optText (selectOne soup selProfileBio) ""
  let location := optText (selectOne soup selProfileLocation) ""
  let joindateN ← req (selectOne soup selProfileJoindate)
  let tweets ← req (stat_cleaner (some (pyStrip (nodeText (← req (selectOne soup selStatPosts))))))
  let following ← req (stat_cleaner (some (pyStrip (nodeText (← req (selectOne soup selStatFollowing))))))
  let followers ← req (stat_cleaner (some (pyStrip (nodeText (← req (selectOne soup selStatFollowers))))))
  let likes ← req (stat_cleaner (some (pyStrip (nodeText (← req (selectOne soup selStatLikes))))))
  let avatarN ← req (selectOne soup selProfileAvatarImg)
  let avatarSrc ← req (getAttr avatarN "src")
  let banner ←
    match selectOne soup selProfileBannerImg with
    | some n => do
      let src ← req (getAttr n "src")
      pure (convert_nitter_image_to_twitter (DOMAIN ++ src))
    | none => pure ""
  pure
    { full_name := pyStrip (nodeText fullnameN)
      username := username_cleaner (pyStrip (nodeText usernameN))
      bio := bio
      location := location
      join_date := pyStrip (pyReplace (pyStrip (nodeText joindateN)) "Joined" "")
      tweets := tweets
      following := following
      followers := followers
      likes := likes
      profile_image := convert_nitter_image_to_twitter (DOMAIN ++ avatarSrc)
      banner_image := banner }

/-- One iteration of the tweet loop in `extract_profile_contents`. -/
def tweetDataOf (tweet : HNode) : Except ExtractErr TweetData := do
  let images ← (selectNodes tweet selAttachmentImg).mapM fun img => do
    let src ← req (getAttr img "src")
    pure (convert_nitter_image_to_twitter (DOMAIN ++ src))
  let retweetedBy := selectOne tweet selRetweetHeaderDiv
  let replyingTo := selectOne tweet selReplyingToA
  let dateN ← req (selectOne tweet selTweetDateA)
  let tweetLink ←
    match selectOne tweet selTweetLink with
    | some n => do
      let href ← req (getAttr n "href")
      pure href
    | none => pure ""
  pure
    { content := optText (selectOne tweet selTweetContent) ""
      date := pyStrip (nodeText dateN)
      likes :=
        match selectOneEntry tweet selIconHeart with
        | some e => pyStrip (nodeText e.parent)
        | none => "0"
      comments :=
        match selectOneEntry tweet selIconComment with
        | some e => pyStrip (nodeText e.parent)
        | none => "0"
      retweets :=
        match selectOneEntry tweet selIconRetweet with
        | some e => pyStrip (nodeText e.parent)
        | none => "0"
      tweet_link := tweetLink
      images := images
      retweeted_by := (retweetedBy.map fun n => pyStrip (nodeText n))
      is_retweet := retweetedBy.isSome
      is_reply := replyingTo.isSome
      replying_to := (replyingTo.map fun n => pyStrip (nodeText n)) }

/-- Source `TwitterScrapper.extract_profile_contents`: the profile record, then
one `TweetData` per `.timeline-item` in document order, then the
photo-rail media URLs. -/
def extract_profile_contents (soup : HNode) : Except ExtractErr ProfileBundle := do
  let profile ← extractProfileRecord soup
  let tweets ← (selectNodes soup selTimelineItem).mapM tweetDataOf
  let media ← (selectNodes soup selPhotoRailImg).mapM fun img => do
    let src ← req (getAttr img "src")
    pure (convert_nitter_image_to_twitter (DOMAIN ++ src))
  pure { profile := profile, tweets := tweets, media := media }

/-- One iteration of the user comprehension in
`extract_search_contents`; `select(...)[0]` and `["src"]` are the
unguarded dereferences. -/
def searchUserOf (user : HNode) : Except ExtractErr SearchUser := do
  let avatarN ← req (selectNodes user selSearchAvatarImg).head?
  let avatarSrc ← req (getAttr avatarN "src")
  let fullnameN ← req (selectOne user selSearchFullname)
  let usernameN ← req (selectOne user selSearchUsername)
  pure
    { profile_image_url := convert_nitter_image_to_twitter (DOMAIN ++ avatarSrc)
      full_name := pyStrip (nodeText fullnameN)
      username := pyStrip (nodeText usernameN)
      bio := optText (selectOne user selTweetContent) "" }

/-- Source `TwitterScrapper.extract_search_contents`: one `SearchUser` per
`.timeline-item`, in document order. -/
def extract_search_contents (soup : HNode) : Except ExtractErr (List SearchUser) :=
  (selectNodes soup selTimelineItem).mapM searchUserOf

/-- The avatar `src` the search extraction dereferences:
`select(".profile-result .tweet-avatar img")[0]["src"]`. -/
def searchAvatarSrc (user : HNode) : Option String :=
  (selectNodes user selSearchAvatarImg).head?.bind (fun n => getAttr n "src")

/-- A search timeline item on which `searchUserOf` cannot fault: the
avatar image (with `src`), full-name and username elements are present. -/
def goodSearchItem (user : HNode) : Bool :=
  (searchAvatarSrc user).isSome && (selectOne user selSearchFullname).isSome &&
    (selectOne user selSearchUsername).isSome

/-- Total restatement of `searchUserOf`, agreeing with it on every item
satisfying `goodSearchItem` (the defaults are never reached there). -/
def searchUserTotal (user : HNode) : SearchUser :=
  { profile_image_url := convert_nitter_image_to_twitter (DOMAIN ++ (searchAvatarSrc user).getD "")
    full_name := optText (selectOne user selSearchFullname) ""
    username := optText (selectOne user selSearchUsername) ""
    bio := optText (selectOne user selTweetContent) "" }

/-! ## Concrete synthetic pages used by witnesses and counterexamples -/

/-- Profile page whose required full-name element is absent. -/
def pageNoFullname : HNode :=
  .elem "html" [] [] (hnodes [
    .elem "a" ["profile-card-username"] [] (hnodes [.text "@alice"])])

/-- Minimal profile page: every required selector present, zero
`.timeline-item` elements, zero photo-rail images. -/
def profilePage7 : HNode :=
  .elem "html" [] [] (hnodes [
    .elem "div" ["profile-card-fullname"] [] (hnodes [.text " Alice A "]),
    .elem "a" ["profile-card-username"] [] (hnodes [.text "@alice"]),
    .elem "div" ["profile-joindate"] [] (hnodes [
      .elem "span" [] [] (hnodes [.text "Joined March 2020"])]),
    .elem "div" ["posts"] [] (hnodes [
      .elem "span" ["profile-stat-num"] [] (hnodes [.text "1,234"])]),
    .elem "div" ["following"] [] (hnodes [
      .elem "span" ["profile-stat-num"] [] (hnodes [.text "56"])]),
    .elem "div" ["followers"] [] (hnodes [
      .elem "span" ["profile-stat-num"] [] (hnodes [.text "789"])]),
    .elem "div" ["likes"] [] (hnodes [
      .elem "span" ["profile-stat-num"] [] (hnodes [.text "0"])]),
    .elem "div" ["profile-card-avatar"] [] (hnodes [
      .elem "img" [] [("src", "/pic/av.jpg")] (hnodes [])])])

/-- The bundle `extract_profile_contents` returns on `profilePage7`. -/
def bundle7 : ProfileBundle :=
  { profile :=
      { full_name := "Alice A"
        username := "alice"
        bio := ""
        location := ""
        join_date := "March 2020"
        tweets := 1234
        following := 56
        followers := 789
        likes := 0
        profile_image := "https://pbs.twimg.com/av.jpg"
        banner_image := "" }
    tweets := []
    media := [] }

/-- A search-results timeline item with avatar, names and bio. -/
def searchItemNode (src nm un bio : String) : HNode :=
  .elem "div" ["timeline-item"] [] (hnodes [
    .elem "div" ["profile-result"] [] (hnodes [
      .elem "div" ["tweet-avatar"] [] (hnodes [
        .elem "img" [] [("src", src)] (hnodes [])]),
      .elem "a" ["fullname"] [] (hnodes [.text nm]),
      .elem "a" ["username"] [] (hnodes [.text un]),
      .elem "div" ["tweet-content"] [] (hnodes [.text bio])])])

/-- Search page with two well-formed result items. -/
def searchPage8 : HNode :=
  .elem "html" [] [] (hnodes [
    searchItemNode "/pic/a1.jpg" "User One" "@user1" "bio one",
    searchItemNode "/a2.jpg" "User Two" "@user2" "bio two"])

/-- First record extracted from `searchPage8`. -/
def searchUser8a : SearchUser :=
  { profile_image_url := "https://pbs.twimg.com/a1.jpg"
    full_name := "User One"
    username := "@user1"
    bio := "bio one" }

/-- Second record extracted from `searchPage8`. -/
def searchUser8b : SearchUser :=
  { profile_image_url := "https://nitter.net/a2.jpg"
    full_name := "User Two"
    username := "@user2"
    bio := "bio two" }

/-- Search page with one `.timeline-item` that lacks every required
sub-element, so the unguarded `[0]` indexing faults. -/
def badSearchPage8 : HNode :=
  .elem "html" [] [] (hnodes [.elem "div" ["timeline-item"] [] (hnodes [])])

/-- Search page whose single item's username markup text is `"@bob"`. -/
def searchPage10 : HNode :=
  .elem "html" [] [] (hnodes [searchItemNode "/a.jpg" "Bob B" "@bob" "hi"])

/-- The record extracted from `searchPage10`: the sigil is preserved. -/
def searchUser10 : SearchUser :=
  { profile_image_url := "https://nitter.net/a.jpg"
    full_name := "Bob B"
    username := "@bob"
    bio := "hi" }

/-- Profile page whose username markup text is the same `"@bob"`. -/
def profilePage10 : HNode :=
  .elem "html" [] [] (hnodes [
    .elem "div" ["profile-card-fullname"] [] (hnodes [.text "Bob B"]),
    .elem "a" ["profile-card-username"] [] (hnodes [.text "@bob"]),
    .elem "div" ["profile-joindate"] [] (hnodes [
      .elem "span" [] [] (hnodes [.text "Joined May 2019"])]),
    .elem "div" ["posts"] [] (hnodes [
      .elem "span" ["profile-stat-num"] [] (hnodes [.text "5"])]),
    .elem "div" ["following"] [] (hnodes [
      .elem "span" ["profile-stat-num"] [] (hnodes [.text "6"])]),
    .elem "div" ["followers"] [] (hnodes [
      .elem "span" ["profile-stat-num"] [] (hnodes [.text "7"])]),
    .elem "div" ["likes"] [] (hnodes [
      .elem "span" ["profile-stat-num"] [] (hnodes [.text "8"])]),
    .elem "div" ["profile-card-avatar"] [] (hnodes [
      .elem "img" [] [("src", "/pic/b.jpg")] (hnodes [])])])

/-- The bundle extracted from `profilePage10`: the username field is
sigil-cleaned to `"bob"`. -/
def bundle10 : ProfileBundle :=
  { profile :=
      { full_name := "Bob B"
        username := "bob"
        bio := ""
        location := ""
        join_date := "May 2019"
        tweets := 5
        following := 6
        followers := 7
        likes := 8
        profile_image := "https://pbs.twimg.com/b.jpg"
        banner_image := "" }
    tweets := []
    media := [] }


/-! ## Helper lemmas -/

theorem strOfList_toList (l : List Char) : (strOfList l).toList = l := rfl

theorem strOfList_append (a b : List Char) :
    strOfList (a ++ b) = strOfList a ++ strOfList b := rfl

/-- Boolean prefix test agrees with the prefix relation (restatement of
the library bridge under a local name). -/
theorem isPrefixOf_true_iff {l1 l2 : List Char} :
    l1.isPrefixOf l2 = true ↔ l1 <+: l2 :=
  List.isPrefixOf_iff_prefix

theorem replaceFuel_fuelIrrel (pat rep : List Char) (hpat : pat ≠ []) :
    ∀ (f g : Nat) (l : List Char), l.length ≤ f → l.length ≤ g →
      replaceFuel pat rep f l = replaceFuel pat rep g l := by
  intro f
  induction f with
  | zero =>
    intro g l hf _
    have hl : l = [] := List.length_eq_zero.mp (Nat.le_zero.mp hf)
    subst hl
    cases g <;> rfl
  | succ f ih =>
    intro g l hf hg
    cases l with
    | nil => cases g <;> rfl
    | cons c cs =>
      cases g with
      | zero => exact absurd hg (by simp)
      | succ g =>
        have h1 : 1 ≤ pat.length := by
          cases pat with
          | nil => exact absurd rfl hpat
          | cons p ps => simp
        simp only [List.length_cons] at hf hg
        simp only [replaceFuel]
        by_cases hp : pat.isPrefixOf (c :: cs) = true
        · rw [hp]
          simp only [if_true]
          have hlen : ((c :: cs).drop pat.length).length ≤ f := by
            simp only [List.length_drop, List.length_cons]
            omega
          have hleng : ((c :: cs).drop pat.length).length ≤ g := by
            simp only [List.length_drop, List.length_cons]
            omega
          rw [ih g _ hlen hleng]
        · rw [Bool.not_eq_true] at hp
          rw [hp]
          simp only [Bool.false_eq_true, if_false]
          rw [ih g cs (by omega) (by omega)]

theorem replaceFuel_headMatch (pat rep t : List Char) (hpat : pat ≠ [])
    (f : Nat) (hf : (pat ++ t).length ≤ f) :
    replaceFuel pat rep f (pat ++ t) = rep ++ replaceFuel pat rep t.length t := by
  cases pat with
  | nil => exact absurd rfl hpat
  | cons p ps =>
    cases f with
    | zero => exact absurd hf (by simp)
    | succ f =>
      have hpre : (p :: ps).isPrefixOf ((p :: ps) ++ t) = true :=
        isPrefixOf_true_iff.mpr (List.prefix_append _ _)
      show replaceFuel (p :: ps) rep (f + 1) (p :: (ps ++ t)) = _
      simp only [replaceFuel]
      rw [show p :: (ps ++ t) = (p :: ps) ++ t from rfl, hpre]
      simp only [if_true]
      rw [List.drop_left]
      have h1 : t.length ≤ f := by
        simp only [List.length_append, List.length_cons] at hf; omega
      rw [replaceFuel_fuelIrrel (p :: ps) rep (by simp) f t.length t h1 (Nat.le_refl _)]

theorem replaceFuel_noOccur (pat rep : List Char) :
    ∀ (f : Nat) (l : List Char), hasOccur pat l = false → replaceFuel pat rep f l = l := by
  intro f
  induction f with
  | zero => intro l _; rfl
  | succ f ih =>
    intro l h
    cases l with
    | nil => rfl
    | cons c cs =>
      simp only [hasOccur, Bool.or_eq_false_iff] at h
      simp only [replaceFuel, h.1]
      simp only [Bool.false_eq_true, if_false]
      rw [ih cs h.2]

theorem unquoteFuel_nil (f : Nat) : unquoteFuel f [] = [] := by
  cases f <;> rfl

theorem decodePair_some_length (cs rest : List Char) (d : Char)
    (h : decodePair cs = some (d, rest)) : cs.length = rest.length + 2 := by
  cases cs with
  | nil => simp [decodePair] at h
  | cons a cs' =>
    cases cs' with
    | nil => simp [decodePair] at h
    | cons b rest' =>
      cases hxa : hexVal a with
      | none => simp [decodePair, hxa] at h
      | some x =>
        cases hxb : hexVal b with
        | none => simp [decodePair, hxa, hxb] at h
        | some y =>
          simp only [decodePair, hxa, hxb, Option.some.injEq, Prod.mk.injEq] at h
          simp [← h.2]

theorem unquoteFuel_fuelIrrel :
    ∀ (f g : Nat) (l : List Char), l.length ≤ f → l.length ≤ g →
      unquoteFuel f l = unquoteFuel g l := by
  intro f
  induction f with
  | zero =>
    intro g l hf _
    have hl : l = [] := List.length_eq_zero.mp (Nat.le_zero.mp hf)
    subst hl
    rw [unquoteFuel_nil, unquoteFuel_nil]
  | succ f ih =>
    intro g l hf hg
    cases l with
    | nil => rw [unquoteFuel_nil, unquoteFuel_nil]
    | cons c cs =>
      cases g with
      | zero => exact absurd hg (by simp)
      | succ g =>
        simp only [List.length_cons] at hf hg
        simp only [unquoteFuel]
        by_cases hc : c = '%'
        · rw [if_pos hc, if_pos hc]
          cases hdp : decodePair cs with
          | none =>
            simp only
            rw [ih g cs (by omega) (by omega)]
          | some dr =>
            obtain ⟨d, rest⟩ := dr
            have hlen := decodePair_some_length cs rest d hdp
            simp only
            rw [ih g rest (by omega) (by omega)]
        · rw [if_neg hc, if_neg hc]
          rw [ih g cs (by omega) (by omega)]

theorem unquoteFuel_append_noPct :
    ∀ (l1 l2 : List Char) (f : Nat), l1.all (fun c => c != '%') = true →
      (l1 ++ l2).length ≤ f →
      unquoteFuel f (l1 ++ l2) = l1 ++ unquoteFuel l2.length l2 := by
  intro l1
  induction l1 with
  | nil =>
    intro l2 f _ hf
    exact unquoteFuel_fuelIrrel f l2.length l2 (by simpa using hf) (Nat.le_refl _)
  | cons c cs ih =>
    intro l2 f hall hf
    simp only [List.all_cons, Bool.and_eq_true, bne_iff_ne] at hall
    cases f with
    | zero => exact absurd hf (by simp)
    | succ f =>
      show unquoteFuel (f + 1) (c :: (cs ++ l2)) = _
      simp only [unquoteFuel]
      rw [if_neg hall.1]
      have hle : (cs ++ l2).length ≤ f := by
        simp only [List.length_append]
        simp only [List.length_cons, List.length_append] at hf
        omega
      rw [ih l2 f (by simp only [List.all_eq_true]; exact fun x hx => List.all_eq_true.mp hall.2 x hx) hle]
      rfl

theorem picProxy_not_prefix_of_twImg (l : List Char) :
    picProxy.toList.isPrefixOf (twImg.toList ++ l) = false := rfl

theorem twImg_no_pct : twImg.toList.all (fun c => c != '%') = true := rfl

theorem picProxy_ne_nil : picProxy.toList ≠ [] := by decide

theorem mapM_ok_of_forall {α β : Type} (f : α → Except ExtractErr β) (g : α → β) :
    ∀ l : List α, (∀ a ∈ l, f a = .ok (g a)) → l.mapM f = .ok (l.map g) := by
  intro l
  induction l with
  | nil => intro _; rfl
  | cons a l ih =>
    intro h
    rw [List.mapM_cons, h a (List.Mem.head l), ih (fun x hx => h x (List.Mem.tail a hx))]
    rfl

theorem mem_of_mapM_ok {α β : Type} (f : α → Except ExtractErr β) :
    ∀ (l : List α) (bs : List β), l.mapM f = .ok bs → ∀ b ∈ bs, ∃ a ∈ l, f a = .ok b := by
  intro l
  induction l with
  | nil =>
    intro bs h b hb
    have : bs = [] := by
      rw [List.mapM_nil] at h
      cases h
      rfl
    subst this
    cases hb
  | cons a l ih =>
    intro bs h b hb
    rw [List.mapM_cons] at h
    cases hfa : f a with
    | error e => rw [hfa] at h; cases h
    | ok b0 =>
      rw [hfa] at h
      cases hml : l.mapM f with
      | error e =>
        rw [hml] at h
        cases h
      | ok rest =>
        rw [hml] at h
        have hbs : b0 :: rest = bs := by
          cases h
          rfl
        subst hbs
        cases hb with
        | head => exact ⟨a, List.Mem.head l, hfa⟩
        | tail _ hmem =>
          obtain ⟨a', ha', hfa'⟩ := ih rest hml b hmem
          exact ⟨a', List.Mem.tail a ha', hfa'⟩

/-! ## Claims -/

/-- C3: for every target URL, a navigation/driver fault makes the
page-load operation (`profile_html_contents` / `search_html_contents`)
return an absent result (`None`) together with the logged fault line —
no exception propagates and no retry happens (the embedding consumes a
single navigation outcome) — while a fault-free load returns the page
markup as text with nothing logged. -/
theorem claim3_fetch_fault_absent_result :
    (∀ (nav : String → Except String String) (u e : String),
        nav (profileUrl u) = .error e →
        profile_html_contents nav u = (none, ["Error: " ++ e]))
    ∧ (∀ (nav : String → Except String String) (u s : String),
        nav (profileUrl u) = .ok s →
        profile_html_contents nav u = (some s, []))
    ∧ (∀ (nav : String → Except String String) (q : String)
        (fd td : Option String) (e : String),
        nav (searchUrl q fd td) = .error e →
        search_html_contents nav q fd td = (none, ["Error: " ++ e]))
    ∧ (∀ (nav : String → Except String String) (q : String)
        (fd td : Option String) (s : String),
        nav (searchUrl q fd td) = .ok s →
        search_html_contents nav q fd td = (some s, [])) := by
  refine ⟨?_, ?_, ?_, ?_⟩
  · intro nav u e h; simp [profile_html_contents, h]
  · intro nav u s h; simp [profile_html_contents, h]
  · intro nav q fd td e h; simp [search_html_contents, h]
  · intro nav q fd td s h; simp [search_html_contents, h]

/-- Witness for C3 at concrete navigation outcomes. -/
theorem claim3_witness :
    profile_html_contents (fun _ => Except.error "boom") "alice"
        = (none, ["Error: boom"])
    ∧ profile_html_contents (fun _ => Except.ok "<p>hi</p>") "alice"
        = (some "<p>hi</p>", [])
    ∧ search_html_contents (fun _ => Except.error "boom") "q" none none
        = (none, ["Error: boom"])
    ∧ search_html_contents (fun _ => Except.ok "<p>hi</p>") "q" none none
        = (some "<p>hi</p>", []) :=
  ⟨claim3_fetch_fault_absent_result.1 _ "alice" "boom" rfl,
   claim3_fetch_fault_absent_result.2.1 _ "alice" "<p>hi</p>" rfl,
   claim3_fetch_fault_absent_result.2.2.1 _ "q" none none "boom" rfl,
   claim3_fetch_fault_absent_result.2.2.2 _ "q" none none "<p>hi</p>" rfl⟩

/-- C4: with no `from_date`/`to_date`, the search URL interpolates the
literal text `None` for both the `since` and `until` parameters. -/
theorem claim4_search_url_literal_none (query : String) :
    searchUrl query none none
      = DOMAIN ++ "/search?f=users&q=" ++ query ++ "&since=None&until=None" := by
  show DOMAIN ++ "/search?f=users&q=" ++ query ++ "&since=" ++ "None"
      ++ "&until=" ++ "None" = _
  simp only [String.append_assoc]
  have h : "&since=" ++ ("None" ++ ("&until=" ++ "None")) = "&since=None&until=None" := by
    decide
  rw [h]

/-- Replacing a single-character pattern by the empty string filters
that character out (the shape of both `str.replace` calls on `"@"` and
`","` in the source). -/
theorem replaceFuel_single_filter (ch : Char) :
    ∀ (f : Nat) (l : List Char), l.length ≤ f →
      replaceFuel [ch] [] f l = l.filter (fun c => c != ch) := by
  intro f
  induction f with
  | zero =>
    intro l hf
    have hl : l = [] := List.length_eq_zero.mp (Nat.le_zero.mp hf)
    subst hl
    rfl
  | succ f ih =>
    intro l hf
    cases l with
    | nil => rfl
    | cons c cs =>
      simp only [List.length_cons] at hf
      simp only [replaceFuel]
      split
      · next h =>
        have hc : c = ch := by
          rcases List.cons_prefix_cons.mp (isPrefixOf_true_iff.mp h) with ⟨h1, _⟩
          exact h1.symm
        subst hc
        simp only [List.nil_append]
        rw [show ((c :: cs).drop ([c] : List Char).length) = cs from rfl]
        rw [ih cs (by omega)]
        simp [List.filter_cons]
      · next h =>
        have hc : ¬ (c = ch) := by
          intro e
          subst e
          exact h (by simp [List.isPrefixOf])
        rw [ih cs (by omega)]
        simp [List.filter_cons, hc]

/-- C5: `username_cleaner` removes every occurrence of `@`, not only a
leading one; in particular `"@handle" ↦ "handle"` and `"@a@b" ↦ "ab"`. -/
theorem claim5_username_cleaner_removes_all_at :
    (∀ s : String, (username_cleaner s).toList = s.toList.filter (fun c => c != '@'))
    ∧ username_cleaner "@handle" = "handle"
    ∧ username_cleaner "@a@b" = "ab" := by
  refine ⟨?_, by decide, by decide⟩
  intro s
  show (pyReplace s "@" "").toList = _
  rw [pyReplace, if_neg (by decide : ¬ (("@" : String).toList = []))]
  rw [strOfList_toList]
  exact replaceFuel_single_filter '@' s.toList.length s.toList (Nat.le_refl _)

/-- Parsing `pyInt` on a nonempty all-digit string yields its decimal value. -/
theorem pyInt_all_digits (l : List Char) (h0 : l ≠ [])
    (hd : l.all Char.isDigit = true) :
    pyInt (strOfList l) = some ((digitsVal l : Nat) : Int) := by
  cases l with
  | nil => exact absurd rfl h0
  | cons c cs =>
    have hc : c.isDigit = true := by
      simp only [List.all_cons, Bool.and_eq_true] at hd
      exact hd.1
    have hne : ¬ (c = '-') := by
      intro e
      subst e
      exact absurd hc (by decide)
    show pyInt ⟨c :: cs⟩ = _
    simp only [pyInt, String.toList]
    rw [if_neg hne, if_pos hd]

/-- C6: `stat_cleaner` removes the thousands separators and parses the
remaining digits as an integer; empty (`""`) and absent (`None`) input
both yield 0. -/
theorem claim6_stat_cleaner :
    (∀ s : String, s.toList.filter (fun c => c != ',') ≠ [] →
      s.toList.all (fun c => c.isDigit || c == ',') = true →
      stat_cleaner (some s)
        = some ((digitsVal (s.toList.filter (fun c => c != ',')) : Nat) : Int))
    ∧ stat_cleaner (some "") = some 0
    ∧ stat_cleaner none = some 0 := by
  refine ⟨?_, rfl, rfl⟩
  intro s hne hall
  have hsne : ¬ (s.toList = []) := by
    intro e
    rw [e] at hne
    exact hne rfl
  show stat_cleaner (some s) = _
  rw [stat_cleaner, if_neg hsne]
  rw [pyReplace, if_neg (by decide : ¬ (("," : String).toList = []))]
  rw [show (("," : String).toList) = ([','] : List Char) from rfl,
    show (("" : String).toList) = ([] : List Char) from rfl,
    replaceFuel_single_filter ',' s.toList.length s.toList (Nat.le_refl _)]
  refine pyInt_all_digits _ hne ?_
  rw [List.all_eq_true]
  intro x hx
  rcases List.mem_filter.mp hx with ⟨hmem, hne'⟩
  have := List.all_eq_true.mp hall x hmem
  rcases Bool.or_eq_true_iff.mp this with hdig | hcomma
  · exact hdig
  · exact absurd hcomma (by simpa using hne')

/-- Witness for C6 at the spec's example `"1,234"`. -/
theorem claim6_witness :
    ("1,234" : String).toList.filter (fun c => c != ',') ≠ []
    ∧ ("1,234" : String).toList.all (fun c => c.isDigit || c == ',') = true
    ∧ stat_cleaner (some "1,234") = some 1234 :=
  ⟨by decide, by decide,
   (claim6_stat_cleaner.1 "1,234" (by decide) (by decide)).trans (by decide)⟩

/-- A URL that does not start with the proxy path passes through
`convert_nitter_image_to_twitter` unchanged. -/
theorem convert_not_prefixed (url : String)
    (h : picProxy.toList.isPrefixOf url.toList = false) :
    convert_nitter_image_to_twitter url = url := by
  unfold convert_nitter_image_to_twitter
  rw [h]
  simp

/-- On a URL starting with the proxy path, the conversion result starts
with the CDN replacement text. -/
theorem convert_prefixed_form (url : String)
    (hp : picProxy.toList.isPrefixOf url.toList = true) :
    ∃ Y : List Char,
      (convert_nitter_image_to_twitter url).toList = twImg.toList ++ Y := by
  have hdec : picProxy.toList ++ url.toList.drop picProxy.toList.length = url.toList :=
    List.prefix_iff_eq_append.mp (isPrefixOf_true_iff.mp hp)
  unfold convert_nitter_image_to_twitter
  rw [if_pos hp]
  simp only [unquote, pyReplace]
  rw [if_neg (show ¬ (picProxy.toList = []) from by decide)]
  rw [strOfList_toList, ← hdec]
  rw [replaceFuel_headMatch picProxy.toList twImg.toList _ picProxy_ne_nil _ (Nat.le_refl _)]
  refine ⟨unquoteFuel (replaceFuel picProxy.toList twImg.toList
    (url.toList.drop picProxy.toList.length).length
    (url.toList.drop picProxy.toList.length)).length
    (replaceFuel picProxy.toList twImg.toList
      (url.toList.drop picProxy.toList.length).length
      (url.toList.drop picProxy.toList.length)), ?_⟩
  rw [strOfList_toList]
  exact unquoteFuel_append_noPct twImg.toList _ _ twImg_no_pct (Nat.le_refl _)

/-- C1 (counterexample to the claim as stated): on a URL whose remainder
itself contains the proxy path, `str.replace` also rewrites that inner
occurrence, so the result is not the prefix substitution plus the
percent-decoded remainder. -/
theorem claim1_counterexample :
    picProxy.toList.isPrefixOf ((picProxy ++ "https://nitter.net/pic/x") : String).toList = true
    ∧ convert_nitter_image_to_twitter (picProxy ++ "https://nitter.net/pic/x")
        ≠ twImg ++ unquote "https://nitter.net/pic/x"
    ∧ convert_nitter_image_to_twitter (picProxy ++ "https://nitter.net/pic/x")
        = "https://pbs.twimg.com/https://pbs.twimg.com/x" :=
  ⟨by decide, by decide, by decide⟩

/-- C1 (amended): for every URL of the form proxy-path ++ remainder in
which the remainder contains no further occurrence of the proxy path,
the conversion returns the CDN replacement followed by the
percent-decoded remainder; every URL not starting with the proxy path is
returned unchanged.  (When the remainder does contain the proxy path
again, `str.replace` substitutes those occurrences too — see the
counterexample.) -/
theorem claim1_amended :
    (∀ rem : String, hasOccur picProxy.toList rem.toList = false →
      convert_nitter_image_to_twitter (picProxy ++ rem) = twImg ++ unquote rem)
    ∧ (∀ url : String, picProxy.toList.isPrefixOf url.toList = false →
      convert_nitter_image_to_twitter url = url) := by
  refine ⟨?_, fun url h => convert_not_prefixed url h⟩
  intro rem h
  have htl : (picProxy ++ rem).toList = picProxy.toList ++ rem.toList := rfl
  have hpre : picProxy.toList.isPrefixOf (picProxy ++ rem).toList = true := by
    rw [htl]
    exact isPrefixOf_true_iff.mpr (List.prefix_append _ _)
  unfold convert_nitter_image_to_twitter
  rw [if_pos hpre]
  simp only [unquote, pyReplace]
  rw [if_neg (show ¬ (picProxy.toList = []) from by decide)]
  rw [htl]
  rw [replaceFuel_headMatch picProxy.toList twImg.toList rem.toList picProxy_ne_nil _ (Nat.le_refl _)]
  rw [replaceFuel_noOccur picProxy.toList twImg.toList rem.toList.length rem.toList h]
  rw [strOfList_toList]
  rw [unquoteFuel_append_noPct twImg.toList rem.toList _ twImg_no_pct (Nat.le_refl _)]
  rw [strOfList_append]
  rfl

/-- Witness for C1 (amended), at the spec's two example URLs. -/
theorem claim1_witness :
    hasOccur picProxy.toList ("https%3A%2F%2Fpbs.twimg.com%2Ffoo.jpg" : String).toList = false
    ∧ convert_nitter_image_to_twitter (picProxy ++ "https%3A%2F%2Fpbs.twimg.com%2Ffoo.jpg")
        = twImg ++ unquote "https%3A%2F%2Fpbs.twimg.com%2Ffoo.jpg"
    ∧ twImg ++ unquote "https%3A%2F%2Fpbs.twimg.com%2Ffoo.jpg"
        = "https://pbs.twimg.com/https://pbs.twimg.com/foo.jpg"
    ∧ picProxy.toList.isPrefixOf ("https://unrelated.example/x.png" : String).toList = false
    ∧ convert_nitter_image_to_twitter "https://unrelated.example/x.png"
        = "https://unrelated.example/x.png" :=
  ⟨by decide, claim1_amended.1 _ (by decide), by decide, by decide,
   claim1_amended.2 _ (by decide)⟩

/-- C9: `convert_nitter_image_to_twitter` is idempotent — its output
never starts with the proxy path (a converted URL starts with the CDN
text, which differs from the proxy path at its ninth character), so a
second application returns it unchanged. -/
theorem claim9_normalize_idempotent (url : String) :
    convert_nitter_image_to_twitter (convert_nitter_image_to_twitter url)
      = convert_nitter_image_to_twitter url := by
  by_cases hp : picProxy.toList.isPrefixOf url.toList = true
  · obtain ⟨Y, hY⟩ := convert_prefixed_form url hp
    have hfalse : picProxy.toList.isPrefixOf
        (convert_nitter_image_to_twitter url).toList = false := by
      rw [hY]
      exact picProxy_not_prefix_of_twImg Y
    exact convert_not_prefixed _ hfalse
  · have h0 := convert_not_prefixed url (Bool.not_eq_true _ |>.mp hp)
    rw [h0]
    exact h0

/-- A required lookup that succeeds continues the extraction. -/
theorem req_bind_some {α β : Type} {o : Option α} {a : α} (h : o = some a)
    (k : α → Except ExtractErr β) : (req o >>= k) = k a := by
  subst h
  rfl

/-- A required lookup that fails aborts the extraction with the
template-mismatch failure. -/
theorem req_bind_none {α β : Type} {o : Option α} (h : o = none)
    (k : α → Except ExtractErr β) : (req o >>= k) = .error .malformedPage := by
  subst h
  rfl

/-- C2: on a profile page whose (required) full-name element is absent,
the profile extraction fails with the template-mismatch error instead of
returning a bundle. -/
theorem claim2_missing_fullname_malformed (html : HNode)
    (h : (selectOne html selProfileFullname).isNone = true) :
    extract_profile_contents html = .error .malformedPage := by
  have h' : selectOne html selProfileFullname = none := Option.isNone_iff_eq_none.mp h
  have hrec : extractProfileRecord html = .error .malformedPage := by
    unfold extractProfileRecord
    exact req_bind_none h' _
  unfold extract_profile_contents
  rw [hrec]
  rfl

/-- Witness for C2 at the concrete full-name-less page. -/
theorem claim2_witness :
    (selectOne pageNoFullname selProfileFullname).isNone = true
    ∧ extract_profile_contents pageNoFullname = Except.error ExtractErr.malformedPage :=
  ⟨by decide, claim2_missing_fullname_malformed pageNoFullname (by decide)⟩

/-- C7: when a profile page extracts successfully and has no
`.timeline-item` elements and no photo-rail images, the resulting bundle
has an empty tweets sequence and an empty media sequence. -/
theorem claim7_empty_timeline_empty_bundle (html : HNode) (b : ProfileBundle)
    (ht : (selectNodes html selTimelineItem).isEmpty = true)
    (hm : (selectNodes html selPhotoRailImg).isEmpty = true)
    (hb : extract_profile_contents html = .ok b) :
    b.tweets = [] ∧ b.media = [] := by
  have ht' : selectNodes html selTimelineItem = [] := by
    cases hsel : selectNodes html selTimelineItem with
    | nil => rfl
    | cons x xs => rw [hsel] at ht; simp [List.isEmpty] at ht
  have hm' : selectNodes html selPhotoRailImg = [] := by
    cases hsel : selectNodes html selPhotoRailImg with
    | nil => rfl
    | cons x xs => rw [hsel] at hm; simp [List.isEmpty] at hm
  unfold extract_profile_contents at hb
  rw [ht', hm'] at hb
  cases hrec : extractProfileRecord html with
  | error e =>
    rw [hrec] at hb
    have hbad : (Except.error e : Except ExtractErr ProfileBundle) = Except.ok b := hb
    cases hbad
  | ok p =>
    rw [hrec] at hb
    have hb' : Except.ok (ProfileBundle.mk p [] []) = Except.ok b := hb
    injection hb' with hb2
    rw [← hb2]
    exact ⟨rfl, rfl⟩

/-- Witness for C7 at the minimal concrete profile page. -/
theorem claim7_witness :
    (selectNodes profilePage7 selTimelineItem).isEmpty = true
    ∧ (selectNodes profilePage7 selPhotoRailImg).isEmpty = true
    ∧ extract_profile_contents profilePage7 = Except.ok bundle7
    ∧ bundle7.tweets = [] ∧ bundle7.media = [] :=
  ⟨rfl, rfl, rfl,
   (claim7_empty_timeline_empty_bundle profilePage7 bundle7 rfl rfl rfl).1,
   (claim7_empty_timeline_empty_bundle profilePage7 bundle7 rfl rfl rfl).2⟩

/-- On a good item the fallible per-item extraction agrees with its
total restatement. -/
theorem searchUserOf_eq_total (user : HNode) (h : goodSearchItem user = true) :
    searchUserOf user = .ok (searchUserTotal user) := by
  unfold goodSearchItem at h
  rw [Bool.and_eq_true, Bool.and_eq_true] at h
  obtain ⟨⟨h1, h2⟩, h3⟩ := h
  obtain ⟨src, hsrc⟩ := Option.isSome_iff_exists.mp h1
  obtain ⟨fn, hfn⟩ := Option.isSome_iff_exists.mp h2
  obtain ⟨un, hun⟩ := Option.isSome_iff_exists.mp h3
  cases hav : (selectNodes user selSearchAvatarImg).head? with
  | none =>
    unfold searchAvatarSrc at hsrc
    rw [hav] at hsrc
    cases hsrc
  | some av =>
    have hget : getAttr av "src" = some src := by
      have hsrc0 := hsrc
      unfold searchAvatarSrc at hsrc0
      rw [hav] at hsrc0
      exact hsrc0
    unfold searchUserOf
    simp only [req_bind_some hav, req_bind_some hget, req_bind_some hfn, req_bind_some hun]
    unfold searchUserTotal
    rw [hsrc, hfn, hun]
    simp only [Option.getD_some, optText]
    rfl

/-- C8 (counterexample to the claim as stated): a page containing one
`.timeline-item` that lacks the required sub-elements makes the whole
search extraction fault (the source's unguarded `[0]` indexing), so no
per-item record is produced. -/
theorem claim8_counterexample :
    extract_search_contents badSearchPage8 = Except.error ExtractErr.malformedPage
    ∧ (selectNodes badSearchPage8 selTimelineItem).length = 1 :=
  ⟨rfl, rfl⟩

/-- C8 (amended): on every search page whose `.timeline-item` elements
each contain the required avatar image (with `src`), full-name and
username elements, the search extraction returns exactly one
`SearchUser` per item, in document order (the extraction is the map of
the per-item extraction over the document-ordered item list); an item
missing a required element faults the whole extraction instead. -/
theorem claim8_amended (html : HNode)
    (hgood : (selectNodes html selTimelineItem).all goodSearchItem = true) :
    extract_search_contents html
      = .ok ((selectNodes html selTimelineItem).map searchUserTotal) := by
  unfold extract_search_contents
  exact mapM_ok_of_forall searchUserOf searchUserTotal _
    (fun item hm => searchUserOf_eq_total item (List.all_eq_true.mp hgood item hm))

/-- Witness for C8 (amended): the concrete two-item page yields two
records in markup order. -/
theorem claim8_witness :
    (selectNodes searchPage8 selTimelineItem).all goodSearchItem = true
    ∧ (selectNodes searchPage8 selTimelineItem).length = 2
    ∧ extract_search_contents searchPage8 = Except.ok [searchUser8a, searchUser8b] :=
  ⟨by decide, by decide,
   (claim8_amended searchPage8 (by decide)).trans (congrArg Except.ok (by decide))⟩

/-- Every record the per-item search extraction returns carries the raw
trimmed text of the item's `.username` element. -/
theorem searchUserOf_username_raw (user : HNode) (u : SearchUser)
    (h : searchUserOf user = .ok u) :
    ∃ n, selectOne user selSearchUsername = some n
      ∧ u.username = pyStrip (nodeText n) := by
  unfold searchUserOf at h
  cases hav : (selectNodes user selSearchAvatarImg).head? with
  | none =>
    rw [req_bind_none hav] at h
    cases h
  | some av =>
    simp only [req_bind_some hav] at h
    cases hget : getAttr av "src" with
    | none =>
      rw [req_bind_none hget] at h
      cases h
    | some src =>
      simp only [req_bind_some hget] at h
      cases hfn : selectOne user selSearchFullname with
      | none =>
        rw [req_bind_none hfn] at h
        cases h
      | some fn =>
        simp only [req_bind_some hfn] at h
        cases hun : selectOne user selSearchUsername with
        | none =>
          rw [req_bind_none hun] at h
          cases h
        | some un =>
          simp only [req_bind_some hun] at h
          have h' : Except.ok (SearchUser.mk
              (convert_nitter_image_to_twitter (DOMAIN ++ src))
              (pyStrip (nodeText fn)) (pyStrip (nodeText un))
              (optText (selectOne user selTweetContent) "")) = Except.ok u := h
          injection h' with h2
          exact ⟨un, rfl, by rw [← h2]⟩

/-- C10: the search extraction's username field is the raw trimmed text
of the `.username` element — not passed through `username_cleaner`, so a
leading `@` survives — whereas the profile extraction sigil-cleans its
username; shown in general for every produced record, and concretely on
two pages whose username markup text is `"@bob"`. -/
theorem claim10_search_username_not_cleaned :
    (∀ (html : HNode) (users : List SearchUser),
        extract_search_contents html = .ok users →
        ∀ u ∈ users, ∃ item ∈ selectNodes html selTimelineItem, ∃ n,
          selectOne item selSearchUsername = some n
          ∧ u.username = pyStrip (nodeText n))
    ∧ (extract_search_contents searchPage10 = .ok [searchUser10]
        ∧ searchUser10.username = "@bob"
        ∧ username_cleaner "@bob" = "bob")
    ∧ (extract_profile_contents profilePage10 = .ok bundle10
        ∧ bundle10.profile.username = "bob") := by
  refine ⟨?_, ⟨rfl, rfl, by decide⟩, ⟨rfl, rfl⟩⟩
  intro html users h u hu
  obtain ⟨item, hitem, hok⟩ := mem_of_mapM_ok searchUserOf _ users h u hu
  obtain ⟨n, hn, huser⟩ := searchUserOf_username_raw item u hok
  exact ⟨item, hitem, n, hn, huser⟩

/-- Witness for C10 at the concrete search page. -/
theorem claim10_witness :
    ∃ item ∈ selectNodes searchPage10 selTimelineItem, ∃ n,
      selectOne item selSearchUsername = some n
      ∧ searchUser10.username = pyStrip (nodeText n) :=
  claim10_search_username_not_cleaned.1 searchPage10 [searchUser10] rfl
    searchUser10 (List.Mem.head _)
